import Mathlib

/-!
Verification development for the terminal-session relay of
`src/server/index.js` and `src/server/pty-wsl-fallback.js`.

The first part embeds the process-wide backend-selection state machine:
the module variables `pty` (which spawning module the variable currently
holds) and `terminalBackend` (the strategy name string), the startup
`import('node-pty')` probe, and `spawnPty` with its nested fallback
handling, together with the `io.on('connection')` handler.

Spawn outcomes of the two importable modules are abstracted as boolean
oracles (`nativeOk`, `wslOk`): whether `pty.spawn(...)` of the
respective module throws on this call.  `createPowerShellFallback`
contains no throwing construction step, so it always yields a handle.
-/

namespace Swivel

/-- The three values the module variable `terminalBackend` takes in
`src/server/index.js`: `'node-pty'`, `'wsl-fallback'`,
`'powershell-child'`. -/
inductive Strategy where
  | nodePty
  | wslFallback
  | powershellChild
deriving DecidableEq, Repr

/-- Position of a strategy in the fixed demotion chain
native-pty → compatibility-shell → direct-spawn. -/
def Strategy.rank : Strategy → Nat
  | .nodePty => 0
  | .wslFallback => 1
  | .powershellChild => 2

/-- The strategy name strings used by `index.js`. -/
def Strategy.name : Strategy → String
  | .nodePty => "node-pty"
  | .wslFallback => "wsl-fallback"
  | .powershellChild => "powershell-child"

/-- The process-wide mutable module state of `index.js` that backend
selection reads and writes: which spawning module the variable `pty`
holds (it is only ever assigned the node-pty module or the wsl fallback
module, never the PowerShell factory), and the string
`terminalBackend`. -/
structure ServerState where
  ptyVar : Strategy
  terminalBackend : Strategy
deriving DecidableEq, Repr

/-- The top-level `try { await import('node-pty') } catch` block of
`index.js` (lines 78-89): on import success `pty` is the native module
and `terminalBackend` stays `'node-pty'`; on failure, on Windows
`loadFallback()` assigns the wsl fallback module and sets
`terminalBackend = 'wsl-fallback'`, while on any other platform the
error is rethrown and startup aborts.  `w` is `os.platform() ===
'win32'`; `importOk` is whether the dynamic import succeeds. -/
def startup (w importOk : Bool) : Except Unit ServerState :=
  if importOk then .ok ⟨.nodePty, .nodePty⟩
  else if w then .ok ⟨.wslFallback, .wslFallback⟩
  else .error ()

/-- Whether `pty.spawn(...)` of the module currently held by `pty`
returns normally, in terms of the per-call oracles. The PowerShell
factory is never held by `pty`, but is total anyway: its body only
calls `child_process.spawn`, which returns a handle. -/
def moduleSpawnOk (m : Strategy) (nativeOk wslOk : Bool) : Bool :=
  match m with
  | .nodePty => nativeOk
  | .wslFallback => wslOk
  | .powershellChild => true

/-- Result of one call to `spawnPty`: which strategy constructors were
invoked in order, which kind of handle was returned (`none` means the
call threw to the caller), and the module state after the call. -/
structure SpawnOutcome where
  attempts : List Strategy
  handle : Option Strategy
  state : ServerState
deriving DecidableEq, Repr

/-- `spawnPty` of `index.js` (lines 97-139).  First `pty.spawn` is
attempted with the module currently in `pty`.  On a throw: if
`terminalBackend === 'node-pty'`, `loadFallback()` is awaited (setting
`pty` to the wsl module and `terminalBackend` to `'wsl-fallback'`) and
the fallback spawn is attempted; if that also throws, on Windows
`createPowerShellFallback()` is returned (setting `terminalBackend` to
`'powershell-child'`), otherwise the fallback error is rethrown.  If
instead `terminalBackend === 'wsl-fallback'` on Windows,
`createPowerShellFallback()` is returned; in every remaining case the
original error is rethrown.  Note that `createPowerShellFallback` never
assigns `pty`, so in the `'powershell-child'` state `pty` still holds
the wsl fallback module. -/
def spawnPty (w : Bool) (s : ServerState) (nativeOk wslOk : Bool) : SpawnOutcome :=
  let first := s.ptyVar
  if moduleSpawnOk first nativeOk wslOk then
    ⟨[first], some first, s⟩
  else if s.terminalBackend = .nodePty then
    if wslOk then
      ⟨[first, .wslFallback], some .wslFallback, ⟨.wslFallback, .wslFallback⟩⟩
    else if w then
      ⟨[first, .wslFallback, .powershellChild], some .powershellChild,
        ⟨.wslFallback, .powershellChild⟩⟩
    else
      ⟨[first, .wslFallback], none, ⟨.wslFallback, .wslFallback⟩⟩
  else if s.terminalBackend = .wslFallback ∧ w then
    ⟨[first, .powershellChild], some .powershellChild, ⟨s.ptyVar, .powershellChild⟩⟩
  else
    ⟨[first], none, s⟩

/-- Observable result of the `io.on('connection')` handler
(`index.js` lines 141-162): whether `activePtys.set(socket.id, ...)`
ran, whether the fatal `'[Server] Unable to start terminal session...'`
notice was emitted and the socket disconnected, the kind of handle
bound, and the module state afterwards. -/
structure ConnOutcome where
  registered : Bool
  errorNoticeSent : Bool
  handle : Option Strategy
  state : ServerState
deriving DecidableEq, Repr

/-- The `io.on('connection')` handler: `await spawnPty()`; on a throw,
emit the failure notice and disconnect without registering; on success,
register the handle in `activePtys` and wire it up. -/
def handleConnection (w : Bool) (s : ServerState) (nativeOk wslOk : Bool) : ConnOutcome :=
  let o := spawnPty w s nativeOk wslOk
  match o.handle with
  | some h => ⟨true, false, some h, o.state⟩
  | none => ⟨false, true, none, o.state⟩

/-- Module states reachable at a connection boundary when
`os.platform() === 'win32'` is `w`: the two startup states and the
fully demoted Windows state. -/
def ReachableW (w : Bool) (s : ServerState) : Prop :=
  s = ⟨.nodePty, .nodePty⟩ ∨ s = ⟨.wslFallback, .wslFallback⟩ ∨
    (w = true ∧ s = ⟨.wslFallback, .powershellChild⟩)

instance (w : Bool) (s : ServerState) : Decidable (ReachableW w s) := by
  unfold ReachableW; infer_instance

/-- Startup only produces reachable states. -/
theorem startup_reachable (w importOk : Bool) (s : ServerState)
    (h : startup w importOk = .ok s) : ReachableW w s := by
  rcases w <;> rcases importOk <;> simp [startup] at h <;> subst h <;> decide

/-- Each connection preserves reachability of the module state. -/
theorem handleConnection_reachable (w : Bool) (s : ServerState) (nativeOk wslOk : Bool)
    (h : ReachableW w s) : ReachableW w (handleConnection w s nativeOk wslOk).state := by
  rcases h with h | h | ⟨hw, h⟩ <;> subst h
  · revert w nativeOk wslOk; decide
  · revert w nativeOk wslOk; decide
  · subst hw; revert nativeOk wslOk; decide

/-- One connection never decreases the demotion rank of
`terminalBackend` (for every module state, reachable or not). -/
theorem handleConnection_rank_mono (w : Bool) (s : ServerState) (nativeOk wslOk : Bool) :
    s.terminalBackend.rank ≤ (handleConnection w s nativeOk wslOk).state.terminalBackend.rank := by
  rcases s with ⟨pv, tb⟩
  rcases pv <;> rcases tb <;> revert w nativeOk wslOk <;> decide

/-- For a reachable state already demoted away from native-pty, a
connection neither invokes the native strategy nor brings the state
back to it. -/
theorem handleConnection_no_native (w : Bool) (s : ServerState) (nativeOk wslOk : Bool)
    (h : ReachableW w s) (hd : s.terminalBackend ≠ .nodePty) :
    Strategy.nodePty ∉ (spawnPty w s nativeOk wslOk).attempts ∧
      (handleConnection w s nativeOk wslOk).state.terminalBackend ≠ .nodePty := by
  rcases h with h | h | ⟨hw, h⟩ <;> subst h
  · exact absurd rfl hd
  · revert w nativeOk wslOk; decide
  · subst hw; revert nativeOk wslOk; decide

/-- Folding a run of connections, each described by its pair of spawn
oracles `(nativeOk, wslOk)`, over the module state. -/
def runConns (w : Bool) : ServerState → List (Bool × Bool) → ServerState
  | s, [] => s
  | s, o :: os => runConns w (handleConnection w s o.1 o.2).state os

/-- All strategy constructors invoked during a run of connections, in
order. -/
def runAttempts (w : Bool) : ServerState → List (Bool × Bool) → List Strategy
  | _, [] => []
  | s, o :: os =>
      (spawnPty w s o.1 o.2).attempts ++ runAttempts w (handleConnection w s o.1 o.2).state os

/-- Whether a list of strategies is strictly ascending in demotion
rank, i.e. follows the fixed chain without repeating or going back. -/
def ranksStrictAscend : List Strategy → Bool
  | [] => true
  | [_] => true
  | a :: b :: rest => decide (a.rank < b.rank) && ranksStrictAscend (b :: rest)

/-- What one `spawnPty` call actually guarantees: attempts follow the
fixed chain in strictly ascending rank with at most three constructors
invoked, the PowerShell factory is only reached on Windows, and the
call throws to the caller exactly in the listed platform-dependent
cases — in which case the connection handler emits the failure notice
and registers no session. -/
def FallbackChainSpec (w : Bool) (s : ServerState) (nativeOk wslOk : Bool) : Prop :=
  ranksStrictAscend (spawnPty w s nativeOk wslOk).attempts = true ∧
  (spawnPty w s nativeOk wslOk).attempts.length ≤ 3 ∧
  (Strategy.powershellChild ∈ (spawnPty w s nativeOk wslOk).attempts → w = true) ∧
  ((spawnPty w s nativeOk wslOk).handle = none ↔
    (s = ⟨.nodePty, .nodePty⟩ ∧ w = false ∧ nativeOk = false ∧ wslOk = false) ∨
    (s = ⟨.wslFallback, .wslFallback⟩ ∧ w = false ∧ wslOk = false) ∨
    (s = ⟨.wslFallback, .powershellChild⟩ ∧ wslOk = false)) ∧
  ((spawnPty w s nativeOk wslOk).handle = none →
    (handleConnection w s nativeOk wslOk).registered = false ∧
    (handleConnection w s nativeOk wslOk).errorNoticeSent = true)

/-- Claim C1, counterexample: on a non-Windows host in the initial
native-pty state, when both the native and the compatibility-shell
spawn throw, `spawnPty` throws to the caller after only two strategy
attempts — the direct-spawn strategy is never attempted — so exhaustion
is reported before any third strategy has failed, refuting the claim as
stated. -/
theorem spawnPty_exhaustion_before_third_strategy :
    (spawnPty false ⟨.nodePty, .nodePty⟩ false false).handle = none ∧
    (spawnPty false ⟨.nodePty, .nodePty⟩ false false).attempts =
      [Strategy.nodePty, Strategy.wslFallback] ∧
    Strategy.powershellChild ∉ (spawnPty false ⟨.nodePty, .nodePty⟩ false false).attempts ∧
    (handleConnection false ⟨.nodePty, .nodePty⟩ false false).registered = false := by
  decide

/-- Claim C1 (amended): for every connection's spawn attempt from a
reachable backend state, strategies are attempted in strictly ascending
order of the fixed chain with at most three attempts, and direct-spawn
is only reached on Windows, where its constructor cannot fail;
exhaustion is reported to the caller exactly when the compatibility
shell fails with no Windows PowerShell backstop available — after the
second strategy (not the third) when starting from native-pty on
non-Windows — and whenever it is reported, the connection is notified
and no session is registered. -/
theorem spawnPty_fallback_chain (w : Bool) (s : ServerState) (nativeOk wslOk : Bool)
    (h : ReachableW w s) : FallbackChainSpec w s nativeOk wslOk := by
  rcases h with h | h | ⟨hw, h⟩ <;> subst h <;> unfold FallbackChainSpec
  · revert w nativeOk wslOk; decide
  · revert w nativeOk wslOk; decide
  · subst hw; revert nativeOk wslOk; decide

/-- Witness for `spawnPty_fallback_chain` at a concrete input. -/
theorem spawnPty_fallback_chain_witness :
    ReachableW false ⟨.nodePty, .nodePty⟩ ∧
      FallbackChainSpec false ⟨.nodePty, .nodePty⟩ true true :=
  ⟨by decide, spawnPty_fallback_chain false ⟨.nodePty, .nodePty⟩ true true (by decide)⟩

/-- Claim C2, counterexample: on a non-Windows host, a failed load of
the native pseudo-terminal capability is rethrown by the startup block,
so the probe does throw and startup aborts rather than demoting to the
compatibility shell — refuting "this call never throws" as a statement
over every outcome. -/
theorem startup_probe_throws_on_nonwindows :
    startup false false = Except.error () := rfl

/-- Claim C2 (amended): on success the startup probe sets the state to
native-pty on any platform; on Windows a failed native-capability load
is absorbed by demoting the state to the compatibility shell and
startup continues; on non-Windows platforms the failure is rethrown and
startup aborts. -/
theorem startup_probe_behavior (w : Bool) :
    startup w true = Except.ok ⟨.nodePty, .nodePty⟩ ∧
    startup true false = Except.ok ⟨.wslFallback, .wslFallback⟩ ∧
    startup false false = Except.error () :=
  ⟨rfl, rfl, rfl⟩

/-- What a run of connections guarantees about demotion: the rank of
`terminalBackend` never decreases, and once the state has left
native-pty the native strategy is never attempted again and the state
never returns to it. -/
def DemotionMonotoneSpec (w : Bool) (s : ServerState) (os : List (Bool × Bool)) : Prop :=
  s.terminalBackend.rank ≤ (runConns w s os).terminalBackend.rank ∧
  (s.terminalBackend ≠ .nodePty →
    (runConns w s os).terminalBackend ≠ .nodePty ∧
      Strategy.nodePty ∉ runAttempts w s os)

/-- Claim C3, counterexample: on Windows, after a connection demotes
the state all the way to powershell-child, the variable `pty` still
holds the wsl fallback module, so the next connection's spawn succeeds
with a compatibility-shell handle — a strategy of strictly lower
demotion rank than the recorded current strategy — refuting "every
later connection starts on the currently demoted (or further demoted)
strategy". -/
theorem powershell_state_spawns_compat_shell :
    (handleConnection true ⟨.nodePty, .nodePty⟩ false false).state =
      ⟨.wslFallback, .powershellChild⟩ ∧
    (handleConnection true ⟨.wslFallback, .powershellChild⟩ true true).handle =
      some .wslFallback ∧
    Strategy.rank .wslFallback < Strategy.rank .powershellChild := by
  decide

/-- Claim C3 (amended): backend demotion is monotonic — across every
sequence of connections the demotion rank of the process-wide state
never decreases, and once the state has left native-pty it never
returns there and no later connection re-attempts (re-probes) the
native strategy; however, in the fully demoted powershell-child state a
later connection is actually spawned through the compatibility-shell
module, so it may start one step above the recorded strategy. -/
theorem backend_demotion_monotonic (w : Bool) (s : ServerState) (os : List (Bool × Bool))
    (h : ReachableW w s) : DemotionMonotoneSpec w s os := by
  induction os generalizing s with
  | nil =>
      exact ⟨Nat.le_refl _, fun hd => ⟨hd, by simp [runAttempts]⟩⟩
  | cons o os ih =>
      have hr := handleConnection_reachable w s o.1 o.2 h
      have ihs := ih _ hr
      refine ⟨Nat.le_trans (handleConnection_rank_mono w s o.1 o.2) ihs.1, fun hd => ?_⟩
      have hn := handleConnection_no_native w s o.1 o.2 h hd
      have h2 := ihs.2 hn.2
      refine ⟨h2.1, ?_⟩
      have hun : runAttempts w s (o :: os) =
          (spawnPty w s o.1 o.2).attempts ++
            runAttempts w (handleConnection w s o.1 o.2).state os := rfl
      rw [hun]
      intro hc
      rcases List.mem_append.mp hc with hc | hc
      · exact hn.1 hc
      · exact h2.2 hc

/-- Witness for `backend_demotion_monotonic` at a concrete input. -/
theorem backend_demotion_monotonic_witness :
    ReachableW true ⟨.wslFallback, .wslFallback⟩ ∧
      DemotionMonotoneSpec true ⟨.wslFallback, .wslFallback⟩ [(false, false), (true, true)] :=
  ⟨by decide,
    backend_demotion_monotonic true ⟨.wslFallback, .wslFallback⟩ [(false, false), (true, true)]
      (by decide)⟩

/-- The JSON body produced by the `/health` route of `index.js`
(lines 185-191). -/
structure HealthBody where
  status : String
  service : String
  timestamp : String
deriving DecidableEq, Repr

/-- The `/health` handler.  It is passed the module state it closes
over (which includes `terminalBackend`) and the current timestamp
string, but its body reads none of the backend state: it answers with a
fixed status and service name plus the timestamp. -/
def healthHandler (_state : ServerState) (now : String) : HealthBody :=
  ⟨"ok", "Project Swivel PTY engine", now⟩

/-- Claim C9, counterexample: the health response is identical in the
initial native-pty state and in the fully demoted powershell-child
state, and none of its fields carries the active strategy name, so the
probe does not return the currently active backend strategy. -/
theorem health_response_lacks_strategy :
    healthHandler ⟨.nodePty, .nodePty⟩ "2026-01-01T00:00:00.000Z" =
      healthHandler ⟨.wslFallback, .powershellChild⟩ "2026-01-01T00:00:00.000Z" ∧
    (healthHandler ⟨.wslFallback, .powershellChild⟩ "2026-01-01T00:00:00.000Z").status ≠
      Strategy.powershellChild.name ∧
    (healthHandler ⟨.wslFallback, .powershellChild⟩ "2026-01-01T00:00:00.000Z").service ≠
      Strategy.powershellChild.name := by
  refine ⟨rfl, ?_, ?_⟩ <;> decide

/-- Claim C9 (amended): the health probe is a synchronous query that
returns the service's liveness (a fixed `"ok"` status), a fixed service
name, and a timestamp, identically for every state the backend selector
can be in; it does not report the active backend strategy name. -/
theorem health_probe_fixed (s₁ s₂ : ServerState) (now : String) :
    healthHandler s₁ now = ⟨"ok", "Project Swivel PTY engine", now⟩ ∧
    healthHandler s₁ now = healthHandler s₂ now :=
  ⟨rfl, rfl⟩

/-!
The second part embeds the Process Handle produced by the pipe-based
strategies — class `PtyProcess` of `src/server/pty-wsl-fallback.js` and
the object literal returned by `createPowerShellFallback` in
`index.js`, which have the same observable structure — together with
the per-session wiring of `index.js` (lines 158-182).

Byte streams are modelled as `List Nat`.  A JavaScript string is a Lean
`String`; writing it to the child's stdin stream uses Node's default
utf8 encoding, and `Buffer.prototype.toString()` performs the standard
(WHATWG) UTF-8 decode that replaces invalid sequences with U+FFFD —
both are modelled explicitly below, since the `terminal.input` handler
funnels Buffers through `toString()`.
-/

/-- UTF-8 encoding of one Unicode scalar value, as performed by a Node
stream `write` with the default `utf8` encoding. -/
def utf8EncodeChar (c : Nat) : List Nat :=
  if c < 0x80 then [c]
  else if c < 0x800 then [0xC0 + c / 64, 0x80 + c % 64]
  else if c < 0x10000 then [0xE0 + c / 4096, 0x80 + c / 64 % 64, 0x80 + c % 64]
  else [0xF0 + c / 262144, 0x80 + c / 4096 % 64, 0x80 + c / 64 % 64, 0x80 + c % 64]

/-- UTF-8 encoding of a sequence of scalar values. -/
def utf8Encode (cps : List Nat) : List Nat := (cps.map utf8EncodeChar).flatten

/-- The bytes a Node stream write produces for a JavaScript string. -/
def strBytes (s : String) : List Nat := utf8Encode (s.data.map Char.toNat)

/-- Whether a byte is a UTF-8 continuation byte. -/
def isCont (b : Nat) : Bool := decide (0x80 ≤ b ∧ b ≤ 0xBF)

/-- Lower bound for the second byte of a three-byte sequence (WHATWG:
lead `0xE0` restricts it to `0xA0..0xBF`). -/
def cont2lo (b : Nat) : Nat := if b = 0xE0 then 0xA0 else 0x80

/-- Upper bound for the second byte of a three-byte sequence (WHATWG:
lead `0xED` restricts it to `0x80..0x9F`). -/
def cont2hi (b : Nat) : Nat := if b = 0xED then 0x9F else 0xBF

/-- Lower bound for the second byte of a four-byte sequence. -/
def cont3lo (b : Nat) : Nat := if b = 0xF0 then 0x90 else 0x80

/-- Upper bound for the second byte of a four-byte sequence. -/
def cont3hi (b : Nat) : Nat := if b = 0xF4 then 0x8F else 0xBF

/-- Fuel-indexed worker for the WHATWG UTF-8 decoder with replacement:
each step consumes at least one byte, so fuel equal to the input length
always suffices and the `0` case is never reached from
`utf8DecodeReplace`. -/
def utf8DecodeGo : Nat → List Nat → List Nat
  | 0, _ => []
  | _, [] => []
  | fuel + 1, b :: rest =>
    if b < 0x80 then b :: utf8DecodeGo fuel rest
    else if 0xC2 ≤ b ∧ b ≤ 0xDF then
      match rest with
      | [] => [0xFFFD]
      | c :: rest2 =>
        if isCont c then ((b - 0xC0) * 64 + (c - 0x80)) :: utf8DecodeGo fuel rest2
        else 0xFFFD :: utf8DecodeGo fuel rest
    else if 0xE0 ≤ b ∧ b ≤ 0xEF then
      match rest with
      | [] => [0xFFFD]
      | c :: rest2 =>
        if cont2lo b ≤ c ∧ c ≤ cont2hi b then
          match rest2 with
          | [] => [0xFFFD]
          | d :: rest3 =>
            if isCont d then
              ((b - 0xE0) * 4096 + (c - 0x80) * 64 + (d - 0x80)) :: utf8DecodeGo fuel rest3
            else 0xFFFD :: utf8DecodeGo fuel rest2
        else 0xFFFD :: utf8DecodeGo fuel rest
    else if 0xF0 ≤ b ∧ b ≤ 0xF4 then
      match rest with
      | [] => [0xFFFD]
      | c :: rest2 =>
        if cont3lo b ≤ c ∧ c ≤ cont3hi b then
          match rest2 with
          | [] => [0xFFFD]
          | d :: rest3 =>
            if isCont d then
              match rest3 with
              | [] => [0xFFFD]
              | e :: rest4 =>
                if isCont e then
                  ((b - 0xF0) * 262144 + (c - 0x80) * 4096 + (d - 0x80) * 64 + (e - 0x80)) ::
                    utf8DecodeGo fuel rest4
                else 0xFFFD :: utf8DecodeGo fuel rest3
            else 0xFFFD :: utf8DecodeGo fuel rest2
        else 0xFFFD :: utf8DecodeGo fuel rest
    else 0xFFFD :: utf8DecodeGo fuel rest

/-- The WHATWG UTF-8 decoder with replacement, as performed by
`Buffer.prototype.toString()`: well-formed sequences decode to their
scalar value, every maximal invalid subpart becomes one U+FFFD
(`0xFFFD`), and a truncated sequence at the end of the input becomes
one U+FFFD. -/
def utf8DecodeReplace (l : List Nat) : List Nat := utf8DecodeGo l.length l

/-- A payload arriving on the `terminal.input` socket event: socket.io
delivers a string for a text frame or a Buffer (byte sequence) for a
binary frame. -/
inductive JsData where
  | str (s : String)
  | buf (bytes : List Nat)
deriving DecidableEq, Repr

/-- JavaScript truthiness of the payload, as tested by `if (data)`:
the empty string is falsy; a Buffer object is always truthy. -/
def truthy : JsData → Bool
  | .str s => decide (s ≠ "")
  | .buf _ => true

/-- The bytes one `terminal.input` payload contributes to the child's
stdin stream when it is written: a string is handed to the handle's
`write` unchanged and encoded onto the stream as utf8; a Buffer is
first converted with `data.toString()` (UTF-8 decode with replacement)
and the resulting string is then encoded back onto the stream. -/
def inputBytes : JsData → List Nat
  | .str s => strBytes s
  | .buf bytes => utf8Encode (utf8DecodeReplace bytes)

/-- Observable state of one fallback Process Handle: the single
replaceable output-callback slot (`onDataCallback` / `dataHandler`,
subscribers named by numbers), whether the child process has exited
(its stdin stream is writable exactly while it has not), whether
`kill()` was issued (`child.killed`), the bytes written to the child's
stdin so far, and the chunks delivered through the callback slot so
far, tagged with the subscriber they went to. -/
structure HandleState where
  subscriber : Option Nat
  exited : Bool
  killSent : Bool
  stdin : List Nat
  delivered : List (Nat × List Nat)
deriving DecidableEq, Repr

/-- A freshly spawned handle: no callback, process running, nothing
written or delivered. -/
def initHandle : HandleState := ⟨none, false, false, [], []⟩

/-- `onData(callback)`: store the callback, replacing any previous
one. -/
def HandleState.onData (s : HandleState) (i : Nat) : HandleState :=
  { s with subscriber := some i }

/-- Invoke the stored callback with a chunk if one is registered, else
drop the chunk — the `if (this.onDataCallback)` / `if (dataHandler)`
guard around every forwarded `data` event. -/
def HandleState.emit (s : HandleState) (chunk : List Nat) : HandleState :=
  match s.subscriber with
  | some i => { s with delivered := s.delivered ++ [(i, chunk)] }
  | none => s

/-- The child's `exit` event handler: deliver the final notice through
the callback slot (if any); the process is now exited, so its stdin is
no longer writable. -/
def HandleState.procExit (s : HandleState) (notice : List Nat) : HandleState :=
  { s.emit notice with exited := true }

/-- A raw, unguarded write on the child's stdin stream: Node raises an
error when the stream is no longer writable (the process has exited),
and appends the bytes otherwise. -/
def stdinWriteRaw (s : HandleState) (bytes : List Nat) : Except String HandleState :=
  if s.exited then .error "write after end"
  else .ok { s with stdin := s.stdin ++ bytes }

/-- `PtyProcess.write` (and the PowerShell handle's `write`): the write
is guarded by `if (child.stdin.writable)`, so it is total — a write
after process exit is skipped. -/
def HandleState.write (s : HandleState) (bytes : List Nat) : HandleState :=
  if s.exited then s else { s with stdin := s.stdin ++ bytes }

/-- `PtyProcess.kill` (and the PowerShell handle's `kill`): guarded by
`if (!child.killed)`; total — Node's `ChildProcess.kill` does not raise
for a process that has already exited. -/
def HandleState.kill (s : HandleState) : HandleState :=
  if s.killSent then s else { s with killSent := true }

/-- The notice the wsl fallback handle emits on process exit. -/
def wslExitNotice : List Nat := strBytes "\r\n[Process exited]\r\n"

/-- The notice the PowerShell fallback handle emits on process exit. -/
def psExitNotice : List Nat := strBytes "\r\n[PowerShell process exited]\r\n"

/-- The `socket.on('terminal.input')` handler of `index.js`: a falsy
payload is dropped; a Buffer payload is converted with `toString()`;
the resulting string is written through the bound handle's `write`. -/
def terminalInput (s : HandleState) (d : JsData) : HandleState :=
  if truthy d then s.write (inputBytes d) else s

/-- A sequence of `terminal.input` events processed in arrival order. -/
def runInputs (s : HandleState) : List JsData → HandleState
  | [] => s
  | d :: ds => runInputs (terminalInput s d) ds

/-- Per-connection view of the session wiring of `index.js`: whether
the socket is still connected (after the `disconnect` event, socket.io
dispatches no further events from that socket to these handlers),
whether `activePtys` still holds the socket id, and the state of the
bound handle, which the event-handler closures keep referencing even
after removal from the map. -/
structure ConnState where
  connected : Bool
  registered : Bool
  handle : HandleState
deriving DecidableEq, Repr

/-- Events observable on one established session. -/
inductive SEvent where
  | input (d : JsData)
  | disconnect
  | procExit
  | outChunk (chunk : List Nat)
deriving DecidableEq, Repr

/-- Dispatch of one event on one session, following `index.js` lines
158-182 and the fallback handle: `terminal.input` writes through the
closure-held handle, and fires only while the socket is connected;
`disconnect` runs the cleanup handler exactly once, which kills and
removes the registered handle (no-op on an unregistered id); the
child's `exit` event emits the final notice through the callback slot
and ends the process; a stdout/stderr `data` event is forwarded through
the callback slot. -/
def stepConn (notice : List Nat) (c : ConnState) : SEvent → ConnState
  | .input d => if c.connected then { c with handle := terminalInput c.handle d } else c
  | .disconnect =>
      if c.connected then
        { connected := false
          registered := false
          handle := if c.registered then c.handle.kill else c.handle }
      else c
  | .procExit => { c with handle := c.handle.procExit notice }
  | .outChunk chunk => { c with handle := c.handle.emit chunk }

/-- A session freshly established by the connection handler: the
socket is connected, the handle registered in `activePtys`, and the
handle's callback slot wired to forward to subscriber `i` (the
socket's outbound channel). -/
def connAfterSpawn (i : Nat) : ConnState :=
  ⟨true, true, initHandle.onData i⟩

/-- The `activePtys` registry together with the handle each connection
id is bound to: `reg id` models `activePtys.has(id)`. -/
structure World where
  reg : String → Bool
  handles : String → HandleState

/-- The disconnect-cleanup of `index.js` lines 170-182, viewed as the
`teardown(connectionId)` operation: look the id up in `activePtys`; if
present, run `try { proc.kill() } catch { log } finally
{ activePtys.delete(id) }` — `killThrows` says whether the underlying
kill call throws, which the `catch` absorbs after logging, and the
mapping is removed in the `finally` either way; if absent, do nothing.
The operation returns normally on every input. -/
def teardown (killThrows : Bool) (w : World) (id : String) : World :=
  if w.reg id then
    { reg := fun k => if k = id then false else w.reg k
      handles := fun k =>
        if k = id then (if killThrows then w.handles k else (w.handles k).kill)
        else w.handles k }
  else w

/-- Events on the output side of one Process Handle. -/
inductive OEvent where
  | onData (i : Nat)
  | outChunk (chunk : List Nat)
  | procExit
deriving DecidableEq, Repr

/-- One output-side event on a handle, per the fallback handle code. -/
def stepOut (notice : List Nat) (s : HandleState) : OEvent → HandleState
  | .onData i => s.onData i
  | .outChunk chunk => s.emit chunk
  | .procExit => s.procExit notice

/-- A sequence of output-side events processed in order. -/
def runOut (notice : List Nat) (s : HandleState) : List OEvent → HandleState
  | [] => s
  | e :: es => runOut notice (stepOut notice s e) es

/-- Declarative description of delivery: a chunk (or the final exit
notice) produced while subscriber `sub` is current goes to `sub`; with
no subscriber it goes nowhere — neither buffered nor an error; an
`onData` replaces the current subscriber for all later chunks. -/
def deliveredSpec (notice : List Nat) : Option Nat → List OEvent → List (Nat × List Nat)
  | _, [] => []
  | _, .onData i :: es => deliveredSpec notice (some i) es
  | none, .outChunk _ :: es => deliveredSpec notice none es
  | some i, .outChunk chunk :: es => (i, chunk) :: deliveredSpec notice (some i) es
  | none, .procExit :: es => deliveredSpec notice none es
  | some i, .procExit :: es => (i, notice) :: deliveredSpec notice (some i) es

/-- The subscriber in effect after a sequence of output-side events. -/
def lastSub (sub : Option Nat) : List OEvent → Option Nat
  | [] => sub
  | .onData i :: es => lastSub (some i) es
  | .outChunk _ :: es => lastSub sub es
  | .procExit :: es => lastSub sub es

/-- Claim C4, counterexample: for a freshly wired session, a
spontaneous process exit delivers exactly one final notice on the
connection's outbound channel, but the session is still registered in
`activePtys` afterwards and its handle was not killed — no teardown is
performed on process exit (`index.js` installs no exit handler; cleanup
happens only in the `disconnect` handler). -/
theorem exit_notice_without_teardown :
    (stepConn wslExitNotice (connAfterSpawn 0) .procExit).handle.delivered =
      [(0, wslExitNotice)] ∧
    (stepConn wslExitNotice (connAfterSpawn 0) .procExit).registered = true ∧
    (stepConn wslExitNotice (connAfterSpawn 0) .procExit).handle.killSent = false := by
  decide

/-- What a spontaneous process exit actually does to a live session
with a wired outbound subscriber `i`: exactly one final notice is
appended to the deliveries, the registration is left untouched, the
process is now exited, and the registration is removed only by the
subsequent disconnect. -/
def ExitNoticeSpec (notice : List Nat) (c : ConnState) (i : Nat) : Prop :=
  (stepConn notice c .procExit).handle.delivered = c.handle.delivered ++ [(i, notice)] ∧
  (stepConn notice c .procExit).registered = c.registered ∧
  (stepConn notice c .procExit).handle.exited = true ∧
  (stepConn notice (stepConn notice c .procExit) .disconnect).registered = false

/-- Claim C4 (amended): for every session on a fallback handle whose
bound process exits spontaneously, exactly one final diagnostic notice
is emitted on that connection's outbound channel; the session is not
removed from the registry at that point — it remains registered until
the connection's disconnect event, whose handler then performs the
cleanup. -/
theorem process_exit_notice_no_teardown (notice : List Nat) (c : ConnState) (i : Nat)
    (h1 : c.handle.subscriber = some i) (h2 : c.connected = true) :
    ExitNoticeSpec notice c i := by
  unfold ExitNoticeSpec stepConn HandleState.procExit HandleState.emit
  simp [h1, h2]

/-- Witness for `process_exit_notice_no_teardown` at a concrete
input. -/
theorem process_exit_notice_no_teardown_witness :
    (connAfterSpawn 3).handle.subscriber = some 3 ∧ (connAfterSpawn 3).connected = true ∧
      ExitNoticeSpec wslExitNotice (connAfterSpawn 3) 3 :=
  ⟨rfl, rfl, process_exit_notice_no_teardown wslExitNotice (connAfterSpawn 3) 3 rfl rfl⟩

/-- What the cleanup operation guarantees: a registered id is removed
and its handle killed (when the underlying kill call does not throw;
when it does, the `catch` absorbs it and the removal still happens), a
second call converges to the same world, and an unknown id is a no-op
— on every input the operation returns normally. -/
def TeardownSpec (t1 t2 : Bool) (w : World) (id : String) : Prop :=
  (w.reg id = true → (teardown t1 w id).reg id = false) ∧
  (w.reg id = true ∧ t1 = false →
    (teardown t1 w id).handles id = (w.handles id).kill) ∧
  teardown t2 (teardown t1 w id) id = teardown t1 w id ∧
  (w.reg id = false → teardown t1 w id = w)

/-- Claim C5: `teardown(connectionId)` is idempotent and total —
calling it when a Session exists kills the Process Handle and removes
the mapping; calling it again, or for an unknown id, is a no-op that
raises no error, so repeated teardowns converge to the same cleaned-up
state. -/
theorem teardown_idempotent_total (t1 t2 : Bool) (w : World) (id : String) :
    TeardownSpec t1 t2 w id := by
  have hskip : ∀ (t : Bool) (v : World), v.reg id = false → teardown t v id = v := by
    intro t v hv
    unfold teardown
    rw [hv]
    simp
  refine ⟨?_, ?_, ?_, ?_⟩
  · intro hw; simp [teardown, hw]
  · rintro ⟨hw, ht⟩; simp [teardown, hw, ht]
  · by_cases hw : w.reg id = true
    · refine hskip t2 _ ?_
      simp [teardown, hw]
    · have hw' : w.reg id = false := by simpa using hw
      rw [hskip t1 w hw', hskip t2 w hw']
  · intro hw; exact hskip t1 w hw

/-- A registry holding exactly one session, for the witness. -/
def oneSessionWorld : World := ⟨fun k => decide (k = "c1"), fun _ => initHandle⟩

/-- Witness for `teardown_idempotent_total` at a concrete input. -/
theorem teardown_idempotent_total_witness :
    TeardownSpec false true oneSessionWorld "c1" :=
  teardown_idempotent_total false true oneSessionWorld "c1"

/-- Claim C6, counterexample: a Buffer input chunk holding the single
byte `0xFF` is not written verbatim — `data.toString()` decodes it to
U+FFFD and the stream write re-encodes that, so the process receives
`EF BF BD`.  The relay is therefore not byte-transparent for Buffer
chunks. -/
theorem buffer_input_reencoded :
    (terminalInput initHandle (.buf [0xFF])).stdin = [0xEF, 0xBF, 0xBD] ∧
    (terminalInput initHandle (.buf [0xFF])).stdin ≠ [0xFF] := by
  decide

/-- Claim C6 (amended): for every sequence of input chunks delivered
before the bound process exits, the bytes written to the process's
input stream are exactly the concatenation, in arrival order, of each
chunk's contribution: a string chunk contributes its bytes verbatim, a
Buffer chunk contributes its UTF-8 re-encoding (invalid sequences
replaced with U+FFFD), and a falsy (empty-string) chunk contributes
nothing — there is no buffering, reordering, or line-splitting. -/
theorem input_relay_order_preserving (s : HandleState) (ds : List JsData)
    (h : s.exited = false) :
    (runInputs s ds).stdin = s.stdin ++ (ds.map inputBytes).flatten := by
  induction ds generalizing s with
  | nil => simp [runInputs]
  | cons d ds ih =>
      have hexit : (terminalInput s d).exited = false := by
        rcases htd : truthy d <;>
          simp [terminalInput, HandleState.write, htd, h]
      have hst : (terminalInput s d).stdin = s.stdin ++ inputBytes d := by
        rcases d with t | bs
        · by_cases ht : t = ""
          · subst ht
            have h1 : truthy (.str "") = false := by decide
            have h2 : inputBytes (.str "") = ([] : List Nat) := by decide
            simp [terminalInput, h1, h2]
          · have h1 : truthy (.str t) = true := by simp [truthy, ht]
            simp [terminalInput, h1, inputBytes, HandleState.write, h]
        · simp [terminalInput, truthy, inputBytes, HandleState.write, h]
      show (runInputs (terminalInput s d) ds).stdin = _
      rw [ih _ hexit, hst]
      simp

/-- Witness for `input_relay_order_preserving` at a concrete input. -/
theorem input_relay_order_preserving_witness :
    initHandle.exited = false ∧
      (runInputs initHandle [JsData.str "ls\n", JsData.buf [0x68, 0x69]]).stdin =
        initHandle.stdin ++
          (([JsData.str "ls\n", JsData.buf [0x68, 0x69]]).map inputBytes).flatten :=
  ⟨rfl, input_relay_order_preserving initHandle [JsData.str "ls\n", JsData.buf [0x68, 0x69]] rfl⟩

/-- A handle whose process has already exited, for the witness. -/
def exitedHandle : HandleState := ⟨none, true, false, [], []⟩

/-- A session whose socket has disconnected and been cleaned up, for
the witness. -/
def closedConn : ConnState := ⟨false, false, initHandle⟩

/-- Claim C7: writing to a handle whose process has exited is a silent
no-op — the `writable` guard skips exactly the write the raw stream
operation would have rejected — and after a session's teardown (which
only the disconnect event triggers, after which socket.io dispatches no
further events from that socket) an input event for that connection
changes nothing and raises nothing. -/
theorem write_after_exit_noop (s : HandleState) (bytes : List Nat) (c : ConnState)
    (d : JsData) (notice : List Nat) (h1 : s.exited = true) (h2 : c.connected = false) :
    s.write bytes = s ∧
    stdinWriteRaw s bytes = .error "write after end" ∧
    stepConn notice c (.input d) = c := by
  refine ⟨?_, ?_, ?_⟩
  · simp [HandleState.write, h1]
  · simp [stdinWriteRaw, h1]
  · simp [stepConn, h2]

/-- Witness for `write_after_exit_noop` at a concrete input. -/
theorem write_after_exit_noop_witness :
    exitedHandle.exited = true ∧ closedConn.connected = false ∧
      (exitedHandle.write [104] = exitedHandle ∧
        stdinWriteRaw exitedHandle [104] = .error "write after end" ∧
        stepConn wslExitNotice closedConn (.input (.str "x")) = closedConn) :=
  ⟨rfl, rfl,
    write_after_exit_noop exitedHandle [104] closedConn (.str "x") wslExitNotice rfl rfl⟩

/-- Claim C8: for the handles produced by the in-repository strategies,
`kill` is idempotent — a second call equals a single call — and a kill
never changes what was written, delivered, subscribed, or whether the
process exited: killing an already-exited handle is an observable
no-op, and the `!child.killed` guard makes the operation total (it
raises no error). -/
theorem kill_idempotent (s : HandleState) :
    s.kill.kill = s.kill ∧
    s.kill.stdin = s.stdin ∧
    s.kill.delivered = s.delivered ∧
    s.kill.subscriber = s.subscriber ∧
    s.kill.exited = s.exited := by
  rcases hk : s.killSent <;> simp [HandleState.kill, hk]

/-- Claim C10: processing any sequence of output-side events from any
starting handle state delivers exactly the chunks (and exit notices)
produced while a subscriber is registered, each to the subscriber most
recently registered before it — chunks produced with no subscriber are
silently dropped, never buffered for later delivery and never an error
— and the live subscriber is always the most recently registered
one. -/
theorem output_subscription_semantics (notice : List Nat) (s : HandleState)
    (es : List OEvent) :
    (runOut notice s es).delivered = s.delivered ++ deliveredSpec notice s.subscriber es ∧
    (runOut notice s es).subscriber = lastSub s.subscriber es := by
  induction es generalizing s with
  | nil => simp [runOut, deliveredSpec, lastSub]
  | cons e es ih =>
      cases e with
      | onData i =>
          simpa [runOut, stepOut, HandleState.onData, deliveredSpec, lastSub]
            using ih (s.onData i)
      | outChunk chunk =>
          rcases hsub : s.subscriber with _ | i
          · have he : s.emit chunk = s := by simp [HandleState.emit, hsub]
            have h2 := ih (s.emit chunk)
            rw [he] at h2
            refine ⟨?_, ?_⟩
            · show (runOut notice (s.emit chunk) es).delivered = _
              rw [he, h2.1]
              simp [deliveredSpec, hsub]
            · show (runOut notice (s.emit chunk) es).subscriber = _
              rw [he, h2.2]
              simp [lastSub, hsub]
          · have hd : (s.emit chunk).delivered = s.delivered ++ [(i, chunk)] := by
              simp [HandleState.emit, hsub]
            have hs2 : (s.emit chunk).subscriber = some i := by
              simp [HandleState.emit, hsub]
            have h2 := ih (s.emit chunk)
            rw [hd, hs2] at h2
            refine ⟨?_, ?_⟩
            · show (runOut notice (s.emit chunk) es).delivered = _
              rw [h2.1]
              simp [deliveredSpec, hsub]
            · show (runOut notice (s.emit chunk) es).subscriber = _
              rw [h2.2]
              simp [lastSub, hsub]
      | procExit =>
          rcases hsub : s.subscriber with _ | i
          · have he : s.procExit notice = { s with exited := true } := by
              simp [HandleState.procExit, HandleState.emit, hsub]
            have h2 := ih (s.procExit notice)
            rw [he] at h2
            refine ⟨?_, ?_⟩
            · show (runOut notice (s.procExit notice) es).delivered = _
              rw [he, h2.1]
              simp [deliveredSpec, hsub]
            · show (runOut notice (s.procExit notice) es).subscriber = _
              rw [he, h2.2]
              simp [lastSub, hsub]
          · have hd : (s.procExit notice).delivered = s.delivered ++ [(i, notice)] := by
              simp [HandleState.procExit, HandleState.emit, hsub]
            have hs2 : (s.procExit notice).subscriber = some i := by
              simp [HandleState.procExit, HandleState.emit, hsub]
            have h2 := ih (s.procExit notice)
            rw [hd, hs2] at h2
            refine ⟨?_, ?_⟩
            · show (runOut notice (s.procExit notice) es).delivered = _
              rw [h2.1]
              simp [deliveredSpec, hsub]
            · show (runOut notice (s.procExit notice) es).subscriber = _
              rw [h2.2]
              simp [lastSub, hsub]

end Swivel
